import Mathlib

/-!
Shallow embedding of the grade-computation core of the report-card backend
(`main.py` together with the store helpers of `database.py`).

Modelling choices:
* The Mongo document store becomes a `Store` structure holding one list per
  collection (`student`, `subject`, `weight`, `score`); `find_one` becomes
  `List.find?` (first match in insertion order) and `find` becomes
  `List.filter`.
* Python floats become `ℚ`; `round(x, 2)` becomes `round2`, round-half-to-even
  at two decimal places on exact rationals.
* Dictionary access `doc.get(key, default)` on optional fields becomes
  `Option` fields read with `Option.getD`; keys the code accesses with
  `doc[key]` (always present on every creation path) are plain fields.
* `HTTPException(status_code, detail)` becomes the `HTTPError` structure and
  a handler returns `Except HTTPError α`.
* Handlers thread the store state explicitly: a handler has type
  `Store → ... → result × Store`, so that read-only behaviour is a theorem
  rather than a typing accident.
-/

namespace Raport

/-- A `student` document: `class_name` is read by the report handler with
`.get`, hence optional here. -/
structure Student where
  id : String
  full_name : String
  student_number : String
  class_name : Option String
  deriving Repr, DecidableEq

/-- A `subject` document; `kkm` is read with `.get("kkm", 70)`. -/
structure Subject where
  id : String
  name : String
  kkm : Option ℚ
  deriving Repr, DecidableEq

/-- A `weight` document; the four component percentages are each read with
`.get(field, default)`, hence optional. -/
structure Weight where
  id : String
  subject_id : String
  class_name : Option String
  tugas : Option ℚ
  kuis : Option ℚ
  uts : Option ℚ
  uas : Option ℚ
  deriving Repr, DecidableEq

/-- A `score` document; `value` is read with `.get("value", 0)`. -/
structure Score where
  id : String
  student_id : String
  subject_id : String
  type : String
  value : Option ℚ
  deriving Repr, DecidableEq

/-- The document store: one collection per record kind. -/
structure Store where
  students : List Student
  subjects : List Subject
  weights : List Weight
  scores : List Score
  deriving Repr, DecidableEq

/-- `HTTPException(status_code=..., detail=...)`. -/
structure HTTPError where
  status_code : ℕ
  detail : String
  deriving Repr, DecidableEq

/-- `get_document_by_id` of `database.py`, specialised by collection through
the `getId` projection: `find_one({"_id": ObjectId(doc_id)})`. -/
def get_document_by_id (docs : List α) (getId : α → String) (doc_id : String) : Option α :=
  docs.find? (fun d => getId d == doc_id)

/-- The filter `{"subject_id": sid, "class_name": cn}` used by both the weight
lookup in `generate_report` and the upsert lookup in `set_weight`. -/
def weight_filter (sid : String) (cn : Option String) (w : Weight) : Bool :=
  w.subject_id == sid && w.class_name == cn

/-- Lines 165-167 of `main.py`: `find_one` for the exact
(subject, class) pair, then, if absent, `find_one` for the class-agnostic
record (`class_name = None`). -/
def find_weight (s : Store) (subject_id : String) (class_name : Option String) : Option Weight :=
  match s.weights.find? (weight_filter subject_id class_name) with
  | some w => some w
  | none => s.weights.find? (weight_filter subject_id none)

/-- The resolved weight quadruple (percentages). -/
structure WeightQuad where
  tugas : ℚ
  kuis : ℚ
  uts : ℚ
  uas : ℚ
  deriving Repr, DecidableEq

/-- Lines 163-172 of `main.py`: the weight quadruple actually used, i.e.
`(weight or {}).get(field, default)` applied to the `find_weight` result. -/
def resolved_weights (s : Store) (subject_id : String) (class_name : Option String) : WeightQuad :=
  let weight := find_weight s subject_id class_name
  { tugas := (weight.bind Weight.tugas).getD 30
    kuis := (weight.bind Weight.kuis).getD 20
    uts := (weight.bind Weight.uts).getD 20
    uas := (weight.bind Weight.uas).getD 30 }

/-- The three-level fallback exactly as the specification words it: the Weight
record matching `(subject_id, class_name)` exactly, else the record matching
`(subject_id, null)`, else the hardcoded quadruple 30/20/20/30.  (Field
absence inside a matched record is handled per field, see the C10 theorem.) -/
def resolved_weights_spec (s : Store) (subject_id : String) (class_name : Option String) :
    WeightQuad :=
  match s.weights.find? (weight_filter subject_id class_name) with
  | some w => { tugas := w.tugas.getD 30, kuis := w.kuis.getD 20
                uts := w.uts.getD 20, uas := w.uas.getD 30 }
  | none =>
    match s.weights.find? (weight_filter subject_id none) with
    | some w => { tugas := w.tugas.getD 30, kuis := w.kuis.getD 20
                  uts := w.uts.getD 20, uas := w.uas.getD 30 }
    | none => { tugas := 30, kuis := 20, uts := 20, uas := 30 }

/-- The score documents matching
`{"student_id": a, "subject_id": b, "type": t}`. -/
def matching_scores (s : Store) (student_id subject_id t : String) : List Score :=
  s.scores.filter
    (fun d => d.student_id == student_id && d.subject_id == subject_id && d.type == t)

/-- `avg_of` of `main.py` lines 180-184: `None` when no score document
matches, otherwise `mean([doc.get("value", 0) for doc in docs])`. -/
def avg_of (s : Store) (student_id subject_id : String) (t : String) : Option ℚ :=
  let docs := matching_scores s student_id subject_id t
  if docs.isEmpty then none
  else some (((docs.map (fun d => d.value.getD 0)).sum) / (docs.length : ℚ))

/-- Floor of a rational as an integer (`Int.fdiv` floors since `den > 0`). -/
def rat_floor (q : ℚ) : ℤ := Int.fdiv q.num (q.den : ℤ)

/-- Round-half-to-even to the nearest integer, the rounding Python's builtin
`round` uses. -/
def round_half_to_even (q : ℚ) : ℤ :=
  let f := rat_floor q
  if q - (f : ℚ) < 1 / 2 then f
  else if (1 : ℚ) / 2 < q - (f : ℚ) then f + 1
  else if f % 2 = 0 then f else f + 1

/-- `round(x, 2)`: round-half-to-even at two decimal places. -/
def round2 (q : ℚ) : ℚ := ((round_half_to_even (q * 100) : ℤ) : ℚ) / 100

/-- One entry of the `components` list built by the report loop. -/
structure Component where
  type : String
  average : Option ℚ
  weight : ℚ
  weighted_score : ℚ
  deriving Repr, DecidableEq

/-- The `student` sub-object of the report payload. -/
structure ReportStudent where
  id : String
  full_name : String
  class_name : Option String
  deriving Repr, DecidableEq

/-- The `subject` sub-object of the report payload. -/
structure ReportSubject where
  id : String
  name : String
  kkm : ℚ
  deriving Repr, DecidableEq

/-- The report payload returned on success. -/
structure Report where
  student : ReportStudent
  subject : ReportSubject
  weights : WeightQuad
  components : List Component
  final_score : ℚ
  status : String
  deriving Repr, DecidableEq

/-- `generate_report` of `main.py` lines 156-220, with the store threaded
explicitly (every database call the handler makes is a read, so the store
comes back on every path — proved, not assumed, by the C9 theorem). -/
def generate_report (s : Store) (student_id subject_id : String) :
    Except HTTPError Report × Store :=
  match get_document_by_id s.students Student.id student_id,
        get_document_by_id s.subjects Subject.id subject_id with
  | some student, some subject =>
    let class_name := student.class_name
    let weight := find_weight s subject_id class_name
    let tugas_w := (weight.bind Weight.tugas).getD 30
    let kuis_w := (weight.bind Weight.kuis).getD 20
    let uts_w := (weight.bind Weight.uts).getD 20
    let uas_w := (weight.bind Weight.uas).getD 30
    let total_w := tugas_w + kuis_w + uts_w + uas_w
    if total_w = 0 then
      (Except.error { status_code := 400, detail := "Semua bobot 0" }, s)
    else
      let tugas_avg := avg_of s student_id subject_id "tugas"
      let kuis_avg := avg_of s student_id subject_id "kuis"
      let uts_avg := avg_of s student_id subject_id "uts"
      let uas_avg := avg_of s student_id subject_id "uas"
      let entries : List (String × Option ℚ × ℚ) :=
        [("tugas", tugas_avg, tugas_w), ("kuis", kuis_avg, kuis_w),
         ("uts", uts_avg, uts_w), ("uas", uas_avg, uas_w)]
      let result := entries.foldl
        (fun acc e =>
          let comp_score := (e.2.1.getD 0) * (e.2.2 / 100)
          (acc.1 ++ [{ type := e.1, average := e.2.1, weight := e.2.2,
                       weighted_score := comp_score : Component }],
           acc.2 + comp_score))
        (([] : List Component), (0 : ℚ))
      let components := result.1
      let final := result.2
      let kkm := subject.kkm.getD 70
      let status := if kkm ≤ final then "Tuntas" else "Belum Tuntas"
      (Except.ok
        { student := { id := student.id, full_name := student.full_name,
                       class_name := student.class_name }
          subject := { id := subject.id, name := subject.name, kkm := kkm }
          weights := { tugas := tugas_w, kuis := kuis_w, uts := uts_w, uas := uas_w }
          components := components
          final_score := round2 final
          status := status }, s)
  | _, _ =>
    (Except.error { status_code := 404, detail := "Siswa atau mapel tidak ditemukan" }, s)

/-- The `WeightIn` request body of the `/weights` endpoint (all four
percentages are present after validation, defaults applied by the model). -/
structure WeightIn where
  subject_id : String
  class_name : Option String
  tugas : ℚ
  kuis : ℚ
  uts : ℚ
  uas : ℚ
  deriving Repr, DecidableEq

/-- The weight document written by `set_weight`: `$set data` (update path) and
`create_document` (insert path) both store every payload field. -/
def weight_of_payload (p : WeightIn) (wid : String) : Weight :=
  { id := wid, subject_id := p.subject_id, class_name := p.class_name,
    tugas := some p.tugas, kuis := some p.kuis, uts := some p.uts, uas := some p.uas }

/-- `update_one({"_id": wid}, {"$set": ...})`: replace the first document with
the given id. -/
def update_one_weight : List Weight → String → Weight → List Weight
  | [], _, _ => []
  | w :: ws, wid, nw => if w.id == wid then nw :: ws else w :: update_one_weight ws wid nw

/-- `set_weight` of `main.py` lines 104-120: find an existing weight for the
`(subject_id, class_name)` pair; overwrite it via `update_one` on its id when
present, otherwise insert a new document (`fresh_id` stands for the ObjectId
Mongo mints).  Returns the reported id together with the new store. -/
def set_weight (s : Store) (payload : WeightIn) (fresh_id : String) : String × Store :=
  match s.weights.find? (weight_filter payload.subject_id payload.class_name) with
  | some existing =>
    (existing.id,
     { s with weights := update_one_weight s.weights existing.id
                           (weight_of_payload payload existing.id) })
  | none =>
    (fresh_id, { s with weights := s.weights ++ [weight_of_payload payload fresh_id] })

/-- The store invariant the spec claims the upsert maintains: at most one
weight document per `(subject_id, class_name)` pair. -/
def AtMostOnePerKey (l : List Weight) : Prop :=
  ∀ sid : String, ∀ cn : Option String, (l.filter (weight_filter sid cn)).length ≤ 1

/-- Mongo-level invariant: `_id` values are pairwise distinct. -/
def IdsDistinct (l : List Weight) : Prop :=
  l.Pairwise (fun a b => a.id ≠ b.id)

/-! Concrete stores used to witness the theorems. `demoStore` is the worked
scenario of the specification: weights 30/20/20/30, averages tugas 80,
kuis 70, uts absent, uas 75, expected final 60.5 and verdict Belum Tuntas. -/

/-- Student of the demo scenario. -/
def demoStudent : Student :=
  { id := "st1", full_name := "Budi", student_number := "001", class_name := some "VIIA" }

/-- Subject of the demo scenario (kkm 70). -/
def demoSubject : Subject := { id := "sb1", name := "Matematika", kkm := some 70 }

/-- Weight record of the demo scenario. -/
def demoWeight : Weight :=
  { id := "w1", subject_id := "sb1", class_name := some "VIIA",
    tugas := some 30, kuis := some 20, uts := some 20, uas := some 30 }

/-- Store for the specification's worked scenario. -/
def demoStore : Store :=
  { students := [demoStudent], subjects := [demoSubject], weights := [demoWeight],
    scores :=
      [ { id := "s1", student_id := "st1", subject_id := "sb1", type := "tugas", value := some 80 },
        { id := "s2", student_id := "st1", subject_id := "sb1", type := "kuis", value := some 70 },
        { id := "s3", student_id := "st1", subject_id := "sb1", type := "uas", value := some 75 } ] }

/-- The payload `generate_report demoStore "st1" "sb1"` returns. -/
def demoReport : Report :=
  { student := { id := "st1", full_name := "Budi", class_name := some "VIIA" }
    subject := { id := "sb1", name := "Matematika", kkm := 70 }
    weights := { tugas := 30, kuis := 20, uts := 20, uas := 30 }
    components :=
      [ { type := "tugas", average := some 80, weight := 30, weighted_score := 24 },
        { type := "kuis", average := some 70, weight := 20, weighted_score := 14 },
        { type := "uts", average := none, weight := 20, weighted_score := 0 },
        { type := "uas", average := some 75, weight := 30, weighted_score := 45 / 2 } ]
    final_score := 121 / 2
    status := "Belum Tuntas" }

/-- Store exercising the rounding boundary: one tugas score of 69.996 with
full weight on tugas, kkm 70.  The unrounded final is 69.996 (fails the kkm
comparison) while the reported, rounded final score is exactly 70. -/
def boundaryStore : Store :=
  { students := [demoStudent], subjects := [demoSubject],
    weights := [ { id := "w1", subject_id := "sb1", class_name := some "VIIA",
                   tugas := some 100, kuis := some 0, uts := some 0, uas := some 0 } ],
    scores := [ { id := "s1", student_id := "st1", subject_id := "sb1", type := "tugas",
                  value := some (69996 / 1000) } ] }

/-- The payload `generate_report boundaryStore "st1" "sb1"` returns. -/
def boundaryReport : Report :=
  { student := { id := "st1", full_name := "Budi", class_name := some "VIIA" }
    subject := { id := "sb1", name := "Matematika", kkm := 70 }
    weights := { tugas := 100, kuis := 0, uts := 0, uas := 0 }
    components :=
      [ { type := "tugas", average := some (17499 / 250), weight := 100,
          weighted_score := 17499 / 250 },
        { type := "kuis", average := none, weight := 0, weighted_score := 0 },
        { type := "uts", average := none, weight := 0, weighted_score := 0 },
        { type := "uas", average := none, weight := 0, weighted_score := 0 } ]
    final_score := 70
    status := "Belum Tuntas" }

/-- Store whose only weight record is all-zero, for the
invalid-configuration path. -/
def zeroWeightStore : Store :=
  { students := [demoStudent], subjects := [demoSubject],
    weights := [ { id := "w1", subject_id := "sb1", class_name := some "VIIA",
                   tugas := some 0, kuis := some 0, uts := some 0, uas := some 0 } ],
    scores := [] }

/-- Weight record with absent kuis and uas fields. -/
def mixedWeight : Weight :=
  { id := "w1", subject_id := "sb1", class_name := none,
    tugas := some 40, kuis := none, uts := some 10, uas := none }

/-- Store whose class-agnostic weight record lacks the kuis and uas fields,
for the per-field-fallback path. -/
def mixedFieldStore : Store :=
  { students := [demoStudent], subjects := [demoSubject],
    weights := [mixedWeight], scores := [] }

/-! Derived characterizations of `generate_report`, proved against the
embedding above and then used to settle the claims. -/

/-- Sum of the four resolved weight percentages (`total_w` in the source). -/
def total_weight (q : WeightQuad) : ℚ := q.tugas + q.kuis + q.uts + q.uas

/-- The component entry the report loop builds for assessment type `t` under
weight `w`. -/
def weighted_component (s : Store) (a b t : String) (w : ℚ) : Component :=
  { type := t, average := avg_of s a b t, weight := w,
    weighted_score := (avg_of s a b t).getD 0 * (w / 100) }

/-- The unrounded final score: sum over the four assessment types of
average-or-zero times weight over 100. -/
def raw_final (s : Store) (a b : String) (q : WeightQuad) : ℚ :=
  (avg_of s a b "tugas").getD 0 * (q.tugas / 100)
    + (avg_of s a b "kuis").getD 0 * (q.kuis / 100)
    + (avg_of s a b "uts").getD 0 * (q.uts / 100)
    + (avg_of s a b "uas").getD 0 * (q.uas / 100)

/-- The report payload expressed through `avg_of`, `resolved_weights`,
`raw_final` and `round2`. -/
def report_of (s : Store) (a b : String) (stu : Student) (sub : Subject) : Report :=
  let q := resolved_weights s b stu.class_name
  { student := { id := stu.id, full_name := stu.full_name, class_name := stu.class_name }
    subject := { id := sub.id, name := sub.name, kkm := sub.kkm.getD 70 }
    weights := q
    components :=
      [ weighted_component s a b "tugas" q.tugas, weighted_component s a b "kuis" q.kuis,
        weighted_component s a b "uts" q.uts, weighted_component s a b "uas" q.uas ]
    final_score := round2 (raw_final s a b q)
    status := if sub.kkm.getD 70 ≤ raw_final s a b q then "Tuntas" else "Belum Tuntas" }

theorem generate_report_ok_eq (s : Store) (a b : String) (stu : Student) (sub : Subject)
    (h1 : get_document_by_id s.students Student.id a = some stu)
    (h2 : get_document_by_id s.subjects Subject.id b = some sub)
    (h3 : total_weight (resolved_weights s b stu.class_name) ≠ 0) :
    generate_report s a b = (Except.ok (report_of s a b stu sub), s) := by
  have h3x : ¬(((find_weight s b stu.class_name).bind Weight.tugas).getD 30
      + ((find_weight s b stu.class_name).bind Weight.kuis).getD 20
      + ((find_weight s b stu.class_name).bind Weight.uts).getD 20
      + ((find_weight s b stu.class_name).bind Weight.uas).getD 30 = 0) := by
    simpa [total_weight, resolved_weights] using h3
  unfold generate_report
  rw [h1, h2]
  simp only [List.foldl, if_neg h3x, List.nil_append, List.cons_append]
  simp only [report_of, resolved_weights, weighted_component, raw_final, Report.mk.injEq,
    WeightQuad.mk.injEq, Component.mk.injEq, zero_add, List.cons.injEq, and_true, true_and]

theorem generate_report_not_found_eq (s : Store) (a b : String)
    (h : get_document_by_id s.students Student.id a = none ∨
         get_document_by_id s.subjects Subject.id b = none) :
    generate_report s a b =
      (Except.error { status_code := 404, detail := "Siswa atau mapel tidak ditemukan" }, s) := by
  unfold generate_report
  rcases h with h | h
  · rw [h]
  · rw [h]
    cases get_document_by_id s.students Student.id a <;> rfl

theorem generate_report_zero_eq (s : Store) (a b : String) (stu : Student) (sub : Subject)
    (h1 : get_document_by_id s.students Student.id a = some stu)
    (h2 : get_document_by_id s.subjects Subject.id b = some sub)
    (h3 : total_weight (resolved_weights s b stu.class_name) = 0) :
    generate_report s a b =
      (Except.error { status_code := 400, detail := "Semua bobot 0" }, s) := by
  have h3x : (((find_weight s b stu.class_name).bind Weight.tugas).getD 30
      + ((find_weight s b stu.class_name).bind Weight.kuis).getD 20
      + ((find_weight s b stu.class_name).bind Weight.uts).getD 20
      + ((find_weight s b stu.class_name).bind Weight.uas).getD 30 = 0) := by
    simpa [total_weight, resolved_weights] using h3
  unfold generate_report
  rw [h1, h2]
  simp only [if_pos h3x]

theorem generate_report_ok_inv (s : Store) (a b : String) (r : Report)
    (h : (generate_report s a b).1 = Except.ok r) :
    ∃ stu sub,
      get_document_by_id s.students Student.id a = some stu ∧
      get_document_by_id s.subjects Subject.id b = some sub ∧
      total_weight (resolved_weights s b stu.class_name) ≠ 0 ∧
      r = report_of s a b stu sub := by
  cases hstu : get_document_by_id s.students Student.id a with
  | none =>
    rw [generate_report_not_found_eq s a b (Or.inl hstu)] at h
    cases h
  | some stu =>
    cases hsub : get_document_by_id s.subjects Subject.id b with
    | none =>
      rw [generate_report_not_found_eq s a b (Or.inr hsub)] at h
      cases h
    | some sub =>
      by_cases hw : total_weight (resolved_weights s b stu.class_name) = 0
      · rw [generate_report_zero_eq s a b stu sub hstu hsub hw] at h
        cases h
      · rw [generate_report_ok_eq s a b stu sub hstu hsub hw] at h
        exact ⟨stu, sub, rfl, rfl, hw, (Except.ok.inj h).symm⟩

theorem demo_report_eval :
    generate_report demoStore "st1" "sb1" = (Except.ok demoReport, demoStore) := by
  have e1 : get_document_by_id demoStore.students Student.id "st1" = some demoStudent := by
    decide
  have e2 : get_document_by_id demoStore.subjects Subject.id "sb1" = some demoSubject := by
    decide
  have e3 : resolved_weights demoStore "sb1" demoStudent.class_name =
      { tugas := 30, kuis := 20, uts := 20, uas := 30 } := by decide
  have a1 : avg_of demoStore "st1" "sb1" "tugas" = some 80 := by
    simp +decide [avg_of, matching_scores, demoStore, List.filter]
  have a2 : avg_of demoStore "st1" "sb1" "kuis" = some 70 := by
    simp +decide [avg_of, matching_scores, demoStore, List.filter]
  have a3 : avg_of demoStore "st1" "sb1" "uts" = none := by
    simp +decide [avg_of, matching_scores, demoStore, List.filter]
  have a4 : avg_of demoStore "st1" "sb1" "uas" = some 75 := by
    simp +decide [avg_of, matching_scores, demoStore, List.filter]
  rw [generate_report_ok_eq demoStore "st1" "sb1" demoStudent demoSubject e1 e2 (by
    rw [e3]; norm_num [total_weight])]
  have hrep : report_of demoStore "st1" "sb1" demoStudent demoSubject = demoReport := by
    simp only [report_of, e3, a1, a2, a3, a4, raw_final, weighted_component, demoReport]
    norm_num [round2, round_half_to_even, rat_floor, Int.fdiv, demoStudent, demoSubject]
  rw [hrep]

theorem boundary_report_eval :
    generate_report boundaryStore "st1" "sb1" = (Except.ok boundaryReport, boundaryStore) := by
  have e1 : get_document_by_id boundaryStore.students Student.id "st1" = some demoStudent := by
    decide
  have e2 : get_document_by_id boundaryStore.subjects Subject.id "sb1" = some demoSubject := by
    decide
  have e3 : resolved_weights boundaryStore "sb1" demoStudent.class_name =
      { tugas := 100, kuis := 0, uts := 0, uas := 0 } := by decide
  have a1 : avg_of boundaryStore "st1" "sb1" "tugas" = some (17499 / 250) := by
    simp +decide [avg_of, matching_scores, boundaryStore, List.filter]
    norm_num
  have a2 : avg_of boundaryStore "st1" "sb1" "kuis" = none := by
    simp +decide [avg_of, matching_scores, boundaryStore, List.filter]
  have a3 : avg_of boundaryStore "st1" "sb1" "uts" = none := by
    simp +decide [avg_of, matching_scores, boundaryStore, List.filter]
  have a4 : avg_of boundaryStore "st1" "sb1" "uas" = none := by
    simp +decide [avg_of, matching_scores, boundaryStore, List.filter]
  rw [generate_report_ok_eq boundaryStore "st1" "sb1" demoStudent demoSubject e1 e2 (by
    rw [e3]; norm_num [total_weight])]
  have hrep : report_of boundaryStore "st1" "sb1" demoStudent demoSubject = boundaryReport := by
    simp only [report_of, e3, a1, a2, a3, a4, raw_final, weighted_component, boundaryReport]
    norm_num [round2, round_half_to_even, rat_floor, Int.fdiv, demoStudent, demoSubject]
  rw [hrep]

/-! Claim theorems. -/

/-- C9: `generate_report` performs no writes: for every input and every store
state, the store that comes back is the one that went in, on the success, the
not-found and the invalid-configuration paths alike; a failure carries only an
`HTTPError`, never a partial report payload, since the result type is
`Except HTTPError Report`. -/
theorem generate_report_preserves_store (s : Store) (a b : String) :
    (generate_report s a b).2 = s := by
  unfold generate_report
  cases get_document_by_id s.students Student.id a <;>
    cases get_document_by_id s.subjects Subject.id b <;>
      first
      | rfl
      | (dsimp only; split <;> rfl)

/-- C3: weight resolution is deterministic (it is a total function of the
store, subject and class) and follows exactly the three-level fallback: the
weight record matching `(subject_id, class_name)` exactly, else the record
matching `(subject_id, null)`, else the hardcoded quadruple 30/20/20/30; the
resolver never fails.  `resolved_weights` is the embedding of the source,
`resolved_weights_spec` restates the specification's three-level rule. -/
theorem resolved_weights_three_level (s : Store) (sid : String) (cn : Option String) :
    resolved_weights s sid cn = resolved_weights_spec s sid cn := by
  unfold resolved_weights resolved_weights_spec find_weight
  cases s.weights.find? (weight_filter sid cn) with
  | some w => rfl
  | none =>
    cases s.weights.find? (weight_filter sid none) with
    | some w => rfl
    | none => rfl

/-- C4: when the student and subject resolve but the four resolved weight
percentages sum to zero, `generate_report` fails with the invalid-configuration
error (HTTP 400, detail "Semua bobot 0") and computes no score: the result is
`Except.error`, which carries no final score and no verdict. -/
theorem generate_report_zero_weight_400 (s : Store) (a b : String)
    (stu : Student) (sub : Subject)
    (h1 : get_document_by_id s.students Student.id a = some stu)
    (h2 : get_document_by_id s.subjects Subject.id b = some sub)
    (h3 : total_weight (resolved_weights s b stu.class_name) = 0) :
    (generate_report s a b).1 =
      Except.error { status_code := 400, detail := "Semua bobot 0" } := by
  rw [generate_report_zero_eq s a b stu sub h1 h2 h3]

/-- Witness for C4: on `zeroWeightStore` the resolved weights are all zero and
the report request fails with HTTP 400. -/
theorem generate_report_zero_weight_400_witness :
    (generate_report zeroWeightStore "st1" "sb1").1 =
      Except.error { status_code := 400, detail := "Semua bobot 0" } :=
  generate_report_zero_weight_400 zeroWeightStore "st1" "sb1" demoStudent demoSubject
    (by decide) (by decide)
    (by rw [show resolved_weights zeroWeightStore "sb1" demoStudent.class_name =
              { tugas := 0, kuis := 0, uts := 0, uas := 0 } from by decide]
        norm_num [total_weight])

/-- C6: when the student identifier or the subject identifier does not resolve
to an existing record (including dangling references), `generate_report` fails
with the not-found error: HTTP 404 and the human-readable detail
"Siswa atau mapel tidak ditemukan", and produces no report payload (the result
is `Except.error`). -/
theorem generate_report_not_found_404 (s : Store) (a b : String)
    (h : get_document_by_id s.students Student.id a = none ∨
         get_document_by_id s.subjects Subject.id b = none) :
    (generate_report s a b).1 =
      Except.error { status_code := 404, detail := "Siswa atau mapel tidak ditemukan" } := by
  rw [generate_report_not_found_eq s a b h]

/-- Witness for C6: asking `demoStore` for an unknown student id fails with
HTTP 404. -/
theorem generate_report_not_found_404_witness :
    (generate_report demoStore "missing" "sb1").1 =
      Except.error { status_code := 404, detail := "Siswa atau mapel tidak ditemukan" } :=
  generate_report_not_found_404 demoStore "missing" "sb1" (Or.inl (by decide))

/-- C1: on every successful report, the computed final score is the sum over
the four assessment types of (average-or-zero) times (resolved weight / 100):
a type with no score records contributes zero to the sum while its resolved
weight is still the one reported and used — no re-normalisation over present
components ever happens.  The reported `final_score` is exactly the rounding
of that sum. -/
theorem generate_report_final_is_weighted_sum (s : Store) (a b : String)
    (stu : Student) (r : Report)
    (hstu : get_document_by_id s.students Student.id a = some stu)
    (hr : (generate_report s a b).1 = Except.ok r) :
    (r.components.map Component.weighted_score).sum =
        (avg_of s a b "tugas").getD 0 * ((resolved_weights s b stu.class_name).tugas / 100)
      + (avg_of s a b "kuis").getD 0 * ((resolved_weights s b stu.class_name).kuis / 100)
      + (avg_of s a b "uts").getD 0 * ((resolved_weights s b stu.class_name).uts / 100)
      + (avg_of s a b "uas").getD 0 * ((resolved_weights s b stu.class_name).uas / 100)
    ∧ r.final_score = round2 ((r.components.map Component.weighted_score).sum)
    ∧ r.weights = resolved_weights s b stu.class_name := by
  obtain ⟨stu2, sub, h1, h2, hw, hrep⟩ := generate_report_ok_inv s a b r hr
  have hstu2 : stu2 = stu := Option.some.inj (h1.symm.trans hstu)
  subst hstu2
  subst hrep
  refine ⟨?_, ?_, rfl⟩
  · simp only [report_of, weighted_component, List.map_cons, List.map_nil, List.sum_cons,
      List.sum_nil]
    ring
  · simp only [report_of, weighted_component, raw_final, List.map_cons, List.map_nil,
      List.sum_cons, List.sum_nil]
    congr 1
    ring

/-- Witness for C1: the specification's worked scenario (weights 30/20/20/30,
averages 80 / 70 / no data / 75). -/
theorem generate_report_final_is_weighted_sum_witness :
    (demoReport.components.map Component.weighted_score).sum =
        (avg_of demoStore "st1" "sb1" "tugas").getD 0
          * ((resolved_weights demoStore "sb1" demoStudent.class_name).tugas / 100)
      + (avg_of demoStore "st1" "sb1" "kuis").getD 0
          * ((resolved_weights demoStore "sb1" demoStudent.class_name).kuis / 100)
      + (avg_of demoStore "st1" "sb1" "uts").getD 0
          * ((resolved_weights demoStore "sb1" demoStudent.class_name).uts / 100)
      + (avg_of demoStore "st1" "sb1" "uas").getD 0
          * ((resolved_weights demoStore "sb1" demoStudent.class_name).uas / 100)
    ∧ demoReport.final_score = round2 ((demoReport.components.map Component.weighted_score).sum)
    ∧ demoReport.weights = resolved_weights demoStore "sb1" demoStudent.class_name :=
  generate_report_final_is_weighted_sum demoStore "st1" "sb1" demoStudent demoReport
    (by decide) (by rw [demo_report_eval])

/-- C2 counterexample: the claim "the verdict is Tuntas iff the reported
final_score is ≥ kkm" is false.  On `boundaryStore` the raw final score is
69.996, which fails the kkm 70 comparison the code performs, yet the reported
(rounded) final_score is exactly 70 ≥ kkm while the verdict stays
"Belum Tuntas". -/
theorem generate_report_rounded_verdict_cex :
    (generate_report boundaryStore "st1" "sb1").1 = Except.ok boundaryReport ∧
    boundaryReport.subject.kkm ≤ boundaryReport.final_score ∧
    boundaryReport.status ≠ "Tuntas" :=
  ⟨by rw [boundary_report_eval], by norm_num [boundaryReport], by decide⟩

/-- C2 as amended: the verdict compares the UNROUNDED final score (the sum of
the weighted components) against kkm, non-strictly, so equality still passes;
the reported rounded `final_score` can reach kkm while the verdict is
"Belum Tuntas". -/
theorem generate_report_verdict_unrounded (s : Store) (a b : String) (r : Report)
    (hr : (generate_report s a b).1 = Except.ok r) :
    r.status = "Tuntas" ↔ r.subject.kkm ≤ (r.components.map Component.weighted_score).sum := by
  obtain ⟨stu, sub, h1, h2, hw, hrep⟩ := generate_report_ok_inv s a b r hr
  subst hrep
  have hsum : ((report_of s a b stu sub).components.map Component.weighted_score).sum
      = raw_final s a b (resolved_weights s b stu.class_name) := by
    simp only [report_of, weighted_component, raw_final, List.map_cons, List.map_nil,
      List.sum_cons, List.sum_nil]
    ring
  rw [hsum]
  simp only [report_of]
  split_ifs with hc
  · simp [hc]
  · simp [hc]

/-- Witness for C2's amended theorem at the demo scenario: the verdict there
is "Belum Tuntas" and indeed 70 is not ≤ 60.5. -/
theorem generate_report_verdict_unrounded_witness :
    demoReport.status = "Tuntas" ↔
      demoReport.subject.kkm ≤ (demoReport.components.map Component.weighted_score).sum :=
  generate_report_verdict_unrounded demoStore "st1" "sb1" demoReport (by rw [demo_report_eval])

/-- C8: in every successful report the reported `final_score` is the raw
weighted sum rounded to exactly two decimal places (in particular it is an
integer multiple of 1/100 whatever the input precision), while the
per-component averages are reported exactly as the aggregator produced them —
unrounded, and `none` (null) for a component with no data. -/
theorem generate_report_rounding_presentation (s : Store) (a b : String) (r : Report)
    (hr : (generate_report s a b).1 = Except.ok r) :
    (∃ n : ℤ, r.final_score = (n : ℚ) / 100) ∧
    r.final_score = round2 ((r.components.map Component.weighted_score).sum) ∧
    r.components.map Component.average =
      [avg_of s a b "tugas", avg_of s a b "kuis", avg_of s a b "uts", avg_of s a b "uas"] := by
  obtain ⟨stu, sub, h1, h2, hw, hrep⟩ := generate_report_ok_inv s a b r hr
  subst hrep
  refine ⟨⟨round_half_to_even
      (raw_final s a b (resolved_weights s b stu.class_name) * 100), ?_⟩, ?_, ?_⟩
  · simp only [report_of, round2]
  · simp only [report_of]
    congr 1
    simp only [weighted_component, raw_final, List.map_cons, List.map_nil, List.sum_cons,
      List.sum_nil]
    ring
  · simp only [report_of, weighted_component, List.map_cons, List.map_nil]

/-- Witness for C8 at the demo scenario: final score 60.5 is the rounding of
the component sum, and the averages come back as 80 / 70 / null / 75
unrounded. -/
theorem generate_report_rounding_presentation_witness :
    demoReport.final_score = round2 ((demoReport.components.map Component.weighted_score).sum) ∧
    demoReport.components.map Component.average =
      [avg_of demoStore "st1" "sb1" "tugas", avg_of demoStore "st1" "sb1" "kuis",
       avg_of demoStore "st1" "sb1" "uts", avg_of demoStore "st1" "sb1" "uas"] :=
  (generate_report_rounding_presentation demoStore "st1" "sb1" demoReport
    (by rw [demo_report_eval])).2

/-- C5: the aggregator returns "no data" (`none`) exactly when no score record
matches the (student, subject, type) triple, and whenever at least one record
matches it returns some value `q` with `q * count = sum of the matched values`
— i.e. the exact, unrounded arithmetic mean of the matching `value` fields. -/
theorem avg_of_mean_characterization (s : Store) (a b t : String) :
    (avg_of s a b t = none ↔ matching_scores s a b t = []) ∧
    (∀ d, d ∈ matching_scores s a b t →
      avg_of s a b t ≠ none ∧
      (avg_of s a b t).getD 0 * ((matching_scores s a b t).length : ℚ) =
        ((matching_scores s a b t).map (fun d2 => d2.value.getD 0)).sum) := by
  constructor
  · unfold avg_of
    by_cases h : (matching_scores s a b t).isEmpty
    · simp [h, List.isEmpty_iff.mp h]
    · simp only [h, Bool.false_eq_true, if_false]
      constructor
      · intro hc
        cases hc
      · intro hnil
        exact absurd (by simp [hnil]) h
  · intro d hd
    have hne : matching_scores s a b t ≠ [] := by
      intro hnil
      rw [hnil] at hd
      cases hd
    have hemp : (matching_scores s a b t).isEmpty = false := by
      cases hm : matching_scores s a b t with
      | nil => exact absurd hm hne
      | cons x xs => rfl
    have hlen : ((matching_scores s a b t).length : ℚ) ≠ 0 := by
      have : (matching_scores s a b t).length ≠ 0 := by
        simpa [List.length_eq_zero] using hne
      exact_mod_cast this
    constructor
    · unfold avg_of
      simp [hemp]
    · unfold avg_of
      simp only [hemp, Bool.false_eq_true, if_false, Option.getD_some]
      exact div_mul_cancel₀ _ hlen

/-- Witness for C5 at the demo scenario: the tugas component has data (so the
average exists) and average times count equals the summed values. -/
theorem avg_of_mean_characterization_witness :
    avg_of demoStore "st1" "sb1" "tugas" ≠ none ∧
    (avg_of demoStore "st1" "sb1" "tugas").getD 0
        * ((matching_scores demoStore "st1" "sb1" "tugas").length : ℚ) =
      ((matching_scores demoStore "st1" "sb1" "tugas").map (fun d2 => d2.value.getD 0)).sum :=
  (avg_of_mean_characterization demoStore "st1" "sb1" "tugas").2
    { id := "s1", student_id := "st1", subject_id := "sb1", type := "tugas", value := some 80 }
    (by decide)

/-- If a weight document passes `weight_filter sid cn`, its key fields are
exactly `(sid, cn)`. -/
theorem weight_filter_eq_of_true (sid : String) (cn : Option String) (e : Weight)
    (h : weight_filter sid cn e = true) : e.subject_id = sid ∧ e.class_name = cn := by
  unfold weight_filter at h
  simpa using h

/-- Decomposition of a successful upsert lookup: the store splits around the
first key-matching document, and `update_one` on its (unique) id replaces
exactly that document. -/
theorem find_update_decomp (l : List Weight) (sid : String) (cn : Option String)
    (e nw : Weight) (hid : IdsDistinct l)
    (hfind : l.find? (weight_filter sid cn) = some e) :
    ∃ l1 l2, l = l1 ++ e :: l2 ∧ (∀ x ∈ l1, weight_filter sid cn x = false) ∧
      update_one_weight l e.id nw = l1 ++ nw :: l2 := by
  induction l with
  | nil => cases hfind
  | cons w ws ih =>
    by_cases hw : weight_filter sid cn w = true
    · rw [List.find?_cons_of_pos _ hw] at hfind
      obtain rfl : w = e := Option.some.inj hfind
      refine ⟨[], ws, rfl, by simp, ?_⟩
      unfold update_one_weight
      simp
    · rw [List.find?_cons_of_neg _ hw] at hfind
      have hid2 : IdsDistinct ws := (List.pairwise_cons.mp hid).2
      have hmem : e ∈ ws := List.mem_of_find?_eq_some hfind
      have hne : w.id ≠ e.id := (List.pairwise_cons.mp hid).1 e hmem
      obtain ⟨l1, l2, hsplit, hall, hupd⟩ := ih hid2 hfind
      refine ⟨w :: l1, l2, by rw [List.cons_append, hsplit], ?_, ?_⟩
      · intro x hx
        rcases List.mem_cons.mp hx with rfl | hx2
        · exact Bool.not_eq_true _ ▸ hw
        · exact hall x hx2
      · unfold update_one_weight
        have hbeq : (w.id == e.id) = false := beq_eq_false_iff_ne.mpr hne
        simp [hbeq, hupd]

/-- Replacing a document by one with the same key fields leaves every
per-key filter count unchanged. -/
theorem filter_length_update (l1 l2 : List Weight) (e nw : Weight)
    (h1 : nw.subject_id = e.subject_id) (h2 : nw.class_name = e.class_name)
    (sid : String) (cn : Option String) :
    ((l1 ++ nw :: l2).filter (weight_filter sid cn)).length =
      ((l1 ++ e :: l2).filter (weight_filter sid cn)).length := by
  have hfe : weight_filter sid cn nw = weight_filter sid cn e := by
    unfold weight_filter
    rw [h1, h2]
  rw [List.filter_append, List.filter_append, List.filter_cons, List.filter_cons, hfe]
  cases weight_filter sid cn e <;> simp

/-- C7: the weight write is an upsert on the composite key
`(subject_id, class_name)`.  If a document with that exact key exists, it is
overwritten in place — same record identity (the returned id is the existing
document's id, and the store is the same list with only that document
replaced); otherwise a new document is appended under the fresh id.  In
consequence, writes preserve the invariant that at most one weight document
exists per key (given the store-level fact that `_id`s are distinct). -/
theorem set_weight_upsert_invariant (s : Store) (p : WeightIn) (fid : String)
    (hkey : AtMostOnePerKey s.weights) (hid : IdsDistinct s.weights) :
    AtMostOnePerKey ((set_weight s p fid).2).weights ∧
    (∀ e, s.weights.find? (weight_filter p.subject_id p.class_name) = some e →
      (set_weight s p fid).1 = e.id ∧
      ∃ l1 l2, s.weights = l1 ++ e :: l2 ∧
        ((set_weight s p fid).2).weights = l1 ++ weight_of_payload p e.id :: l2) ∧
    (s.weights.find? (weight_filter p.subject_id p.class_name) = none →
      (set_weight s p fid).1 = fid ∧
      ((set_weight s p fid).2).weights = s.weights ++ [weight_of_payload p fid]) := by
  unfold set_weight
  cases hf : s.weights.find? (weight_filter p.subject_id p.class_name) with
  | some e =>
    obtain ⟨l1, l2, hsplit, hall, hupd⟩ :=
      find_update_decomp s.weights p.subject_id p.class_name e (weight_of_payload p e.id) hid hf
    have he : e.subject_id = p.subject_id ∧ e.class_name = p.class_name :=
      weight_filter_eq_of_true _ _ _ (List.find?_some hf)
    refine ⟨?_, ?_, ?_⟩
    · intro sid cn
      dsimp only
      rw [hupd]
      rw [filter_length_update l1 l2 e (weight_of_payload p e.id)
        (by simp [weight_of_payload, he.1]) (by simp [weight_of_payload, he.2]) sid cn]
      rw [← hsplit]
      exact hkey sid cn
    · intro e2 heq
      obtain rfl : e = e2 := Option.some.inj heq
      exact ⟨rfl, l1, l2, hsplit, by dsimp only; rw [hupd]⟩
    · intro heq
      cases heq
  | none =>
    have hall : ∀ x ∈ s.weights, ¬ weight_filter p.subject_id p.class_name x = true :=
      fun x hx => by simpa using List.find?_eq_none.mp hf x hx
    refine ⟨?_, ?_, ?_⟩
    · intro sid cn
      dsimp only
      rw [List.filter_append]
      by_cases hnw : weight_filter sid cn (weight_of_payload p fid) = true
      · have hk : p.subject_id = sid ∧ p.class_name = cn := by
          simpa [weight_of_payload] using weight_filter_eq_of_true sid cn _ hnw
        have hnil : s.weights.filter (weight_filter sid cn) = [] := by
          rw [← hk.1, ← hk.2]
          exact List.filter_eq_nil_iff.mpr hall
        simp [hnil, hnw]
      · have hnil2 : List.filter (weight_filter sid cn) [weight_of_payload p fid] = [] := by
          simp [List.filter_cons, hnw]
        rw [hnil2, List.append_nil]
        exact hkey sid cn
    · intro e2 heq
      cases heq
    · intro _
      exact ⟨rfl, rfl⟩

/-- Witness for C7: writing new 40/30/20/10 percentages for the pair
(sb1, VIIA) on `demoStore` hits the existing record `w1`: the id reported is
"w1", not the fresh id, and the one-record-per-key invariant still holds. -/
theorem set_weight_upsert_invariant_witness :
    AtMostOnePerKey ((set_weight demoStore
        { subject_id := "sb1", class_name := some "VIIA",
          tugas := 40, kuis := 30, uts := 20, uas := 10 } "w9").2).weights ∧
    (set_weight demoStore
        { subject_id := "sb1", class_name := some "VIIA",
          tugas := 40, kuis := 30, uts := 20, uas := 10 } "w9").1 = "w1" := by
  have h := set_weight_upsert_invariant demoStore
    { subject_id := "sb1", class_name := some "VIIA",
      tugas := 40, kuis := 30, uts := 20, uas := 10 } "w9"
    (fun sid cn => List.length_filter_le _ _) (by simp [IdsDistinct, demoStore])
  exact ⟨h.1, (h.2.1 demoWeight (by decide)).1⟩

/-- C10: field defaults are applied per field, not per record: when a weight
document is matched by the two-level lookup, each of the four component
percentages that is present in the document is used as stored, and only an
absent field falls back to its own hardcoded default (tugas 30, kuis 20,
uts 20, uas 30); the matched record is never replaced wholesale. -/
theorem resolved_weights_per_field_fallback (s : Store) (b : String) (cn : Option String)
    (w : Weight) (h : find_weight s b cn = some w) :
    ((∀ x, w.tugas = some x → (resolved_weights s b cn).tugas = x) ∧
      (w.tugas = none → (resolved_weights s b cn).tugas = 30)) ∧
    ((∀ x, w.kuis = some x → (resolved_weights s b cn).kuis = x) ∧
      (w.kuis = none → (resolved_weights s b cn).kuis = 20)) ∧
    ((∀ x, w.uts = some x → (resolved_weights s b cn).uts = x) ∧
      (w.uts = none → (resolved_weights s b cn).uts = 20)) ∧
    ((∀ x, w.uas = some x → (resolved_weights s b cn).uas = x) ∧
      (w.uas = none → (resolved_weights s b cn).uas = 30)) := by
  refine ⟨⟨?_, ?_⟩, ⟨?_, ?_⟩, ⟨?_, ?_⟩, ⟨?_, ?_⟩⟩ <;> intro x <;>
    first
    | (intro hx; simp [resolved_weights, h, hx])
    | simp [resolved_weights, h, x]

/-- Witness for C10 on `mixedFieldStore`, whose matched record stores
tugas 40 and uts 10 but lacks kuis and uas: the present fields are used as
stored and only the absent ones default. -/
theorem resolved_weights_per_field_fallback_witness :
    (resolved_weights mixedFieldStore "sb1" (some "VIIA")).tugas = 40 ∧
    (resolved_weights mixedFieldStore "sb1" (some "VIIA")).kuis = 20 ∧
    (resolved_weights mixedFieldStore "sb1" (some "VIIA")).uts = 10 ∧
    (resolved_weights mixedFieldStore "sb1" (some "VIIA")).uas = 30 := by
  have h := resolved_weights_per_field_fallback mixedFieldStore "sb1" (some "VIIA")
    mixedWeight (by decide)
  exact ⟨h.1.1 40 (by decide), h.2.1.2 (by decide), h.2.2.1.1 10 (by decide),
    h.2.2.2.2 (by decide)⟩

end Raport
